import Mathlib

set_option maxRecDepth 100000
set_option maxHeartbeats 1000000

/-!
Verification of the user-context building core of the modelDay backend
(`src/services/contextService.js`), as a shallow embedding in Lean.

Conventions of the embedding:
* JavaScript field values are modelled by `JVal` (`undefined`, `null`, finite
  numbers, strings).  `NaN` never occurs as a stored field value in this code
  path, so it is not a `JVal` constructor; the `NaN` results of `parseFloat`
  and of invalid `Date`s are modelled by `Option` (`none` = `NaN` / Invalid
  Date).
* JavaScript numbers are modelled by exact rationals `JNum` (numerator and
  positive denominator, not necessarily reduced).  Every number reaching the
  arithmetic of this service is a decimally written literal, which a double
  represents and prints in a way that agrees with the exact rational for the
  magnitudes involved here.
* A JavaScript `Date` is its millisecond timestamp; an Invalid Date is `none`.
  The host timezone is taken to be UTC (the local-time accessors
  `getFullYear`/`getMonth`/`toLocaleDateString` are modelled as UTC).
* `new Date(string)` is modelled for the ISO `YYYY-MM-DD` format (parsed as
  UTC midnight, exactly as ECMA-262 specifies); every other string is
  modelled as unparseable (Invalid Date).  The strings exercised by the
  claims are of this shape or deliberate garbage such as `"not-a-date"`.
-/

namespace ModelDay

/-! ### JavaScript numbers -/

/-- Exact rational standing in for a JavaScript number: `num / den`,
`den` positive (not necessarily in lowest terms). -/
structure JNum where
  num : ℤ
  den : ℕ
deriving DecidableEq, Repr

/-- The number `0`. -/
def JNum.zero : JNum := ⟨0, 1⟩

/-- Embed an integer. -/
def JNum.ofInt (n : ℤ) : JNum := ⟨n, 1⟩

/-- Addition (`a + b` on JavaScript numbers). -/
def JNum.add (a b : JNum) : JNum :=
  ⟨a.num * b.den + b.num * a.den, a.den * b.den⟩

/-- Strictly-positive test (`x > 0`). -/
def JNum.gtZero (a : JNum) : Bool := 0 < a.num

/-- `Math.floor`-style floor to an integer (used by `new Date(number)`). -/
def JNum.floorInt (a : JNum) : ℤ := Int.fdiv a.num a.den

/-- Render a natural number below 100 on two digits (`padStart(2, "0")` on a
one- or two-digit numeral). -/
def pad2 (n : ℕ) : String := if n < 10 then "0" ++ toString n else toString n

/-- `Number.prototype.toFixed(2)`: round `|v| * 100` to the nearest integer,
ties away from zero, and print with two decimals and the sign. -/
def JNum.toFixed2 (a : JNum) : String :=
  let m := a.num.natAbs
  let x := (m * 200 + a.den) / (2 * a.den)
  (if a.num < 0 then "-" else "") ++ toString (x / 100) ++ "." ++ pad2 (x % 100)

/-- Decimal digits of the fractional part `rem / d`, with fuel.  Terminates at
an exact expansion; every number in this code path has one. -/
def fracDigits : ℕ → ℕ → ℕ → List Char
  | 0, _, _ => []
  | _, 0, _ => []
  | fuel + 1, rem, d =>
    Char.ofNat (48 + (rem * 10) / d) :: fracDigits fuel ((rem * 10) % d) d

/-- `String(number)`, for numbers with a finite decimal expansion (all numbers
arising in this service). -/
def JNum.toDisplayString (a : JNum) : String :=
  if Int.emod a.num a.den = 0 then toString (Int.fdiv a.num a.den)
  else
    let m := a.num.natAbs
    (if a.num < 0 then "-" else "") ++ toString (m / a.den) ++ "." ++
      String.mk (fracDigits 40 (m % a.den) a.den)

/-! ### JavaScript values -/

/-- A JavaScript value as stored in a record field. -/
inductive JVal where
  | undef
  | null
  | num (q : JNum)
  | str (s : String)
deriving DecidableEq

/-- JavaScript truthiness of a field value (`undefined`, `null`, `0` and `""`
are falsy). -/
def JVal.truthy : JVal → Bool
  | .undef => false
  | .null => false
  | .num q => decide (q.num ≠ 0)
  | .str s => decide (s ≠ "")

/-- `String(v)`, i.e. the text a template literal interpolates for `v`. -/
def JVal.toDisplay : JVal → String
  | .undef => "undefined"
  | .null => "null"
  | .num q => q.toDisplayString
  | .str s => s

/-- The ubiquitous `${v || "dflt"}` idiom: display `v` when truthy, else the
default text. -/
def jvalOr (v : JVal) (dflt : String) : String :=
  if v.truthy then v.toDisplay else dflt

/-! ### `parseFloat` -/

/-- Leading-whitespace test used by `parseFloat`. -/
def isWS (c : Char) : Bool :=
  (c == ' ') || (c == '\t') || (c == '\n') || (c == '\r')

/-- Split a leading run of decimal digits off a character list. -/
def takeDigits : List Char → List ℕ × List Char
  | [] => ([], [])
  | c :: cs =>
    if 48 ≤ c.toNat && c.toNat ≤ 57 then
      let (ds, rest) := takeDigits cs
      ((c.toNat - 48) :: ds, rest)
    else ([], c :: cs)

/-- Value of a digit list read in base 10. -/
def digitsVal (l : List ℕ) : ℕ := l.foldl (fun a d => a * 10 + d) 0

/-- Scale by a power of ten (decimal exponent part). -/
def JNum.applyExp (a : JNum) (e : ℤ) : JNum :=
  if 0 ≤ e then ⟨a.num * (10 : ℤ) ^ e.toNat, a.den⟩
  else ⟨a.num, a.den * 10 ^ (-e).toNat⟩

/-- `parseFloat` on a character list: skip whitespace, optional sign, longest
numeric prefix (`digits [. digits] [e|E [sign] digits]`); `none` is `NaN`. -/
def parseFloatChars (l : List Char) : Option JNum :=
  let l1 := l.dropWhile isWS
  let sgn : Bool × List Char :=
    match l1 with
    | '-' :: rest => (true, rest)
    | '+' :: rest => (false, rest)
    | _ => (false, l1)
  let (ip, r1) := takeDigits sgn.2
  let frac : List ℕ × List Char :=
    match r1 with
    | '.' :: rest => takeDigits rest
    | _ => ([], r1)
  if ip.isEmpty && frac.1.isEmpty then none
  else
    let mant : ℕ := digitsVal ip * 10 ^ frac.1.length + digitsVal frac.1
    let base : JNum :=
      ⟨if sgn.1 then -(mant : ℤ) else (mant : ℤ), 10 ^ frac.1.length⟩
    let e : ℤ :=
      match frac.2 with
      | c :: rest =>
        if c == 'e' || c == 'E' then
          let es : Bool × List Char :=
            match rest with
            | '-' :: r => (true, r)
            | '+' :: r => (false, r)
            | _ => (false, rest)
          let (ed, _) := takeDigits es.2
          if ed.isEmpty then 0
          else if es.1 then -(digitsVal ed : ℤ) else (digitsVal ed : ℤ)
        else 0
      | [] => 0
    some (base.applyExp e)

/-- `parseFloat(v)`: numbers re-parse to themselves, strings are parsed,
everything else is `NaN`. -/
def parseFloatJV : JVal → Option JNum
  | .num q => some q
  | .str s => parseFloatChars s.data
  | _ => none

/-! ### Dates -/

/-- Leap-year test of the Gregorian calendar. -/
def isLeap (y : ℤ) : Bool :=
  Int.emod y 4 = 0 && (Int.emod y 100 ≠ 0 || Int.emod y 400 = 0)

/-- Length of a month. -/
def daysInMonth (y : ℤ) (m : ℕ) : ℕ :=
  if m = 2 then (if isLeap y then 29 else 28)
  else if m = 4 || m = 6 || m = 9 || m = 11 then 30
  else 31

/-- Days since the Unix epoch of a civil date (Howard Hinnant's algorithm). -/
def daysFromCivil (y : ℤ) (m d : ℕ) : ℤ :=
  let yAdj : ℤ := y - (if m ≤ 2 then 1 else 0)
  let era : ℤ := Int.fdiv yAdj 400
  let yoe : ℕ := (yAdj - era * 400).toNat
  let mp : ℕ := if 2 < m then m - 3 else m + 9
  let doy : ℕ := (153 * mp + 2) / 5 + d - 1
  let doe : ℕ := yoe * 365 + yoe / 4 - yoe / 100 + doy
  era * 146097 + (doe : ℤ) - 719468

/-- Civil date (year, month `1..12`, day) of a count of days since the epoch. -/
def civilFromDays (z : ℤ) : ℤ × ℕ × ℕ :=
  let era : ℤ := Int.fdiv (z + 719468) 146097
  let doe : ℕ := ((z + 719468) - era * 146097).toNat
  let yoe : ℕ := (doe - doe / 1460 + doe / 36524 - doe / 146096) / 365
  let doy : ℕ := doe - (365 * yoe + yoe / 4 - yoe / 100)
  let mp : ℕ := (5 * doy + 2) / 153
  let d : ℕ := doy - (153 * mp + 2) / 5 + 1
  let m : ℕ := if mp < 10 then mp + 3 else mp - 9
  (era * 400 + (yoe : ℤ) + (if m ≤ 2 then 1 else 0), m, d)

/-- Milliseconds per day. -/
def msPerDay : ℤ := 86400000

/-- Day count (floored) of a millisecond timestamp. -/
def dayOfTs (ts : ℤ) : ℤ := Int.fdiv ts msPerDay

/-- `Date.prototype.getDay` names, index `0` = Sunday. -/
def weekdayNames : List String :=
  ["Sunday", "Monday", "Tuesday", "Wednesday", "Thursday", "Friday", "Saturday"]

/-- `en-US` long month names, index `0` = January. -/
def monthNames : List String :=
  ["January", "February", "March", "April", "May", "June", "July",
   "August", "September", "October", "November", "December"]

/-- `new Date(string)` for the ISO `YYYY-MM-DD` date-only format, parsed as
UTC midnight; every other string is modelled as Invalid Date (`none`). -/
def jsDateParse (s : String) : Option ℤ :=
  match s.data with
  | [y1, y2, y3, y4, s1, m1, m2, s2, d1, d2] =>
    if (s1 == '-') && (s2 == '-') &&
        [y1, y2, y3, y4, m1, m2, d1, d2].all (fun c => 48 ≤ c.toNat && c.toNat ≤ 57)
    then
      let y : ℤ := (digitsVal [y1.toNat - 48, y2.toNat - 48, y3.toNat - 48, y4.toNat - 48] : ℤ)
      let mo : ℕ := digitsVal [m1.toNat - 48, m2.toNat - 48]
      let da : ℕ := digitsVal [d1.toNat - 48, d2.toNat - 48]
      if 1 ≤ mo && mo ≤ 12 && 1 ≤ da && da ≤ daysInMonth y mo then
        some (msPerDay * daysFromCivil y mo da)
      else none
    else none
  | _ => none

/-- `new Date(v)` for a field value: strings are parsed, numbers are timestamp
milliseconds, `null` is the epoch, `undefined` is Invalid Date. -/
def jvalToDate : JVal → Option ℤ
  | .str s => jsDateParse s
  | .num q => some q.floorInt
  | .null => some 0
  | .undef => none

/-- `date > now` on a possibly-invalid `Date`: comparisons against `NaN` are
false, so an Invalid Date is never "after now". -/
def jdAfter (d : Option ℤ) (now : ℤ) : Bool :=
  match d with
  | some t => now < t
  | none => false

/-- `toLocaleDateString("en-US", {weekday long, year numeric, month long, day
numeric})` on a `Date` object: `"Invalid Date"` when invalid, otherwise e.g.
`"Saturday, June 1, 2024"` (host timezone = UTC). -/
def formatDisplayDateD (d : Option ℤ) : String :=
  match d with
  | none => "Invalid Date"
  | some ts =>
    let days := dayOfTs ts
    let c := civilFromDays days
    weekdayNames.getD ((Int.emod (days + 4) 7).toNat) "" ++ ", " ++
      monthNames.getD (c.2.1 - 1) "" ++ " " ++ toString c.2.2 ++ ", " ++
      toString c.1

/-- `toLocaleTimeString("en-US", {2-digit, hour12 false})` on a `Date`:
24-hour `"HH:MM"` (host timezone = UTC). -/
def formatTimeD (d : Option ℤ) : String :=
  match d with
  | none => "Invalid Date"
  | some ts =>
    pad2 ((Int.emod (Int.fdiv ts 3600000) 24).toNat) ++ ":" ++
      pad2 ((Int.emod (Int.fdiv ts 60000) 60).toNat)

/-- `ContextService._formatJobDate`: falsy dates give `"Date TBD"`; a truthy
string is fed through `new Date` and `_formatDisplayDate` (and since `new
Date` never throws in JavaScript, the `catch` branch that would return the
raw string is unreachable — an unparseable string renders as the
`"Invalid Date"` output of `toLocaleDateString`); a truthy non-string value
reaches `_formatDisplayDate` unconverted and fails its `instanceof Date`
guard, giving `"Date TBD"`. -/
def formatJobDate (v : JVal) : String :=
  if v.truthy then
    match v with
    | .str s => formatDisplayDateD (jsDateParse s)
    | _ => "Date TBD"
  else "Date TBD"

/-! ### Records

One structure per record category, all fields JavaScript values defaulting to
`undefined` (an absent property and an `undefined` property are
indistinguishable to this service). -/

structure Profile where
  name : JVal := .undef
  email : JVal := .undef
  phone : JVal := .undef
  displayName : JVal := .undef
deriving DecidableEq

structure Job where
  clientName : JVal := .undef
  type : JVal := .undef
  date : JVal := .undef
  rate : JVal := .undef
  currency : JVal := .undef
  status : JVal := .undef
  paymentStatus : JVal := .undef
  location : JVal := .undef
  notes : JVal := .undef
  time : JVal := .undef
deriving DecidableEq

structure Event where
  type : JVal := .undef
  clientName : JVal := .undef
  date : JVal := .undef
  startTime : JVal := .undef
  location : JVal := .undef
  dayRate : JVal := .undef
  currency : JVal := .undef
  notes : JVal := .undef
deriving DecidableEq

structure AiJob where
  clientName : JVal := .undef
  type : JVal := .undef
  date : JVal := .undef
  rate : JVal := .undef
  currency : JVal := .undef
  status : JVal := .undef
  paymentStatus : JVal := .undef
  location : JVal := .undef
deriving DecidableEq

structure Agency where
  name : JVal := .undef
  city : JVal := .undef
  country : JVal := .undef
  commissionRate : JVal := .undef
deriving DecidableEq

structure Agent where
  name : JVal := .undef
  email : JVal := .undef
  phone : JVal := .undef
  city : JVal := .undef
  country : JVal := .undef
deriving DecidableEq

structure Meeting where
  clientName : JVal := .undef
  date : JVal := .undef
  time : JVal := .undef
  location : JVal := .undef
deriving DecidableEq

structure Stay where
  locationName : JVal := .undef
  checkInDate : JVal := .undef
  checkOutDate : JVal := .undef
  cost : JVal := .undef
  currency : JVal := .undef
deriving DecidableEq

structure Shooting where
  clientName : JVal := .undef
  date : JVal := .undef
  location : JVal := .undef
  rate : JVal := .undef
  currency : JVal := .undef
deriving DecidableEq

/-! ### Miscellaneous string helpers used by the formatters -/

/-- `String.prototype.toUpperCase` (ASCII as used here). -/
def jsToUpper (s : String) : String := String.mk (s.data.map Char.toUpper)

/-- `ToNumber` on a value, for the relational comparison `v > 0`:
numbers are themselves, `null` is `0`, `undefined` is `NaN`, a string must be
(after trimming) empty (`0`) or a full numeric literal, else `NaN`. -/
def jsToNumber : JVal → Option JNum
  | .num q => some q
  | .null => some JNum.zero
  | .undef => none
  | .str s =>
    let t := ((s.data.dropWhile isWS).reverse.dropWhile isWS).reverse
    if t.isEmpty then some ⟨0, 1⟩
    else
      let sgn : Bool × List Char :=
        match t with
        | '-' :: rest => (true, rest)
        | '+' :: rest => (false, rest)
        | _ => (false, t)
      let (ip, r1) := takeDigits sgn.2
      let frac : List ℕ × List Char :=
        match r1 with
        | '.' :: rest => takeDigits rest
        | _ => ([], r1)
      if (ip.isEmpty && frac.1.isEmpty) || ¬ frac.2.isEmpty then none
      else
        let mant : ℕ := digitsVal ip * 10 ^ frac.1.length + digitsVal frac.1
        some ⟨if sgn.1 then -(mant : ℤ) else (mant : ℤ), 10 ^ frac.1.length⟩

/-- The relational comparison `v > 0` (false when `v` converts to `NaN`). -/
def jvalGtZero (v : JVal) : Bool :=
  match jsToNumber v with
  | some q => q.gtZero
  | none => false

/-- `String.prototype.split(".")` followed by `.pop()` needs a structural
split; this returns the chunks between dots (`""` chunks included). -/
def splitOnDotChars : List Char → List (List Char)
  | [] => [[]]
  | c :: cs =>
    let r := splitOnDotChars cs
    if c == '.' then [] :: r
    else
      match r with
      | [] => [[c]]
      | h :: ts => (c :: h) :: ts

/-- `s.split(".")`. -/
def splitOnDot (s : String) : List String := (splitOnDotChars s.data).map String.mk

/-! ### Section formatters (`_buildXSection`), one per record category.

Each `forEach (...) { section += ... }` loop is embedded as a `foldl` that
appends one block string per record; the per-record block is its own
definition so the theorems can speak about "one block per record". -/

/-- `_buildUserProfileSection`; `none` models both an absent profile object
and one with no own keys (`!userProfile || Object.keys(userProfile).length
=== 0`). -/
def buildUserProfileSection (p : Option Profile) : String :=
  match p with
  | none => "USER PROFILE: Profile not found."
  | some pr =>
    "USER PROFILE:\n" ++
    "- Name: " ++ jvalOr pr.name "Not specified" ++ "\n" ++
    "- Email: " ++ jvalOr pr.email "Not specified" ++ "\n" ++
    (if pr.phone.truthy then "- Phone: " ++ pr.phone.toDisplay ++ "\n" else "") ++
    (if pr.displayName.truthy then
      "- Display Name: " ++ pr.displayName.toDisplay ++ "\n" else "") ++
    "\n"

/-- The per-job text appended by the `jobs.forEach` loop of
`_buildJobsSection`. -/
def jobBlock (j : Job) : String :=
  "- " ++ formatJobDate j.date ++ ": " ++ jvalOr j.clientName "Unknown Client" ++
    " (" ++ jvalOr j.type "Job" ++ ")\n" ++
  "  Rate: " ++ jvalOr j.rate "TBD" ++ " " ++ jvalOr j.currency "USD" ++
    " | Status: " ++ jvalOr j.status "Unknown" ++
    " | Payment: " ++ jvalOr j.paymentStatus "Unknown" ++ "\n" ++
  "  Location: " ++ jvalOr j.location "TBD" ++ "\n" ++
  (if j.notes.truthy then "  Notes: " ++ j.notes.toDisplay ++ "\n" else "") ++
  "\n"

/-- One pass of the `jobs.forEach` loop of `_buildJobsSection`: accumulate
total earnings, the upcoming/completed counters and the section text.  Note
that `new Date` never throws, so the `catch` around the date comparison is
dead and a job with a truthy but unparseable date falls into the `else`
branch (`completedJobs++`) because `InvalidDate > now` is false. -/
def jobsStep (now : ℤ) (acc : JNum × ℕ × ℕ × String) (j : Job) :
    JNum × ℕ × ℕ × String :=
  let tot := if j.rate.truthy then acc.1.add ((parseFloatJV j.rate).getD JNum.zero) else acc.1
  let upc := if j.date.truthy then
      (if jdAfter (jvalToDate j.date) now then acc.2.1 + 1 else acc.2.1)
    else acc.2.1
  let cmp := if j.date.truthy then
      (if jdAfter (jvalToDate j.date) now then acc.2.2.1 else acc.2.2.1 + 1)
    else acc.2.2.1
  (tot, upc, cmp, acc.2.2.2 ++ jobBlock j)

/-- `_buildJobsSection` (`now` is the `new Date()` sample the function takes). -/
def buildJobsSection (jobs : List Job) (now : ℤ) : String :=
  if jobs.isEmpty then "JOBS: No jobs found."
  else
    let r := jobs.foldl (jobsStep now)
      (JNum.zero, 0, 0, "JOBS (" ++ toString jobs.length ++ " total):\n")
    r.2.2.2 ++ "SUMMARY:\n" ++
      "- Total Earnings: $" ++ r.1.toFixed2 ++ " USD\n" ++
      "- Upcoming Jobs: " ++ toString r.2.1 ++ "\n" ++
      "- Completed Jobs: " ++ toString r.2.2.1 ++ "\n"

/-- The per-event text of `_buildEventsSection`. -/
def eventBlock (e : Event) : String :=
  "- " ++ formatJobDate e.date ++ " at " ++ jvalOr e.startTime "Time TBD" ++ ": " ++
    (if e.type.truthy then jsToUpper e.type.toDisplay else "EVENT") ++ "\n" ++
  "  Client: " ++ jvalOr e.clientName "Unknown Client" ++ "\n" ++
  "  Location: " ++ jvalOr e.location "Location TBD" ++ "\n" ++
  (if e.dayRate.truthy then
    "  Day Rate: " ++ e.dayRate.toDisplay ++ " " ++ jvalOr e.currency "USD" ++ "\n"
   else "") ++
  (if e.notes.truthy then "  Notes: " ++ e.notes.toDisplay ++ "\n" else "") ++
  "\n"

/-- `_buildEventsSection` (caps at the first 20 events). -/
def buildEventsSection (events : List Event) : String :=
  if events.isEmpty then "EVENTS: No events found."
  else
    (events.take 20).foldl (fun acc e => acc ++ eventBlock e)
      ("EVENTS (" ++ toString events.length ++ " total):\n")

/-- The per-job text of `_buildAiJobsSection`. -/
def aiJobBlock (j : AiJob) : String :=
  "- " ++ formatJobDate j.date ++ ": " ++ jvalOr j.clientName "Unknown Client" ++
    " (" ++ jvalOr j.type "AI Job" ++ ")\n" ++
  "  Rate: " ++
    (if j.rate.truthy then j.rate.toDisplay ++ " " ++ jvalOr j.currency "USD"
     else "Rate TBD") ++
    " | Status: " ++ jvalOr j.status "Unknown" ++
    " | Payment: " ++ jvalOr j.paymentStatus "Unknown" ++ "\n" ++
  (if j.location.truthy then "  Location: " ++ j.location.toDisplay ++ "\n" else "") ++
  "\n"

/-- `_buildAiJobsSection` (caps at the first 5; its header is the bare
`"AI JOBS:"` — unlike the other formatters it does not print the count). -/
def buildAiJobsSection (aiJobs : List AiJob) : String :=
  if aiJobs.isEmpty then "AI JOBS: No AI jobs found."
  else
    (aiJobs.take 5).foldl (fun acc j => acc ++ aiJobBlock j) "AI JOBS:\n"

/-- The per-agency text of `_buildAgenciesSection`. -/
def agencyBlock (a : Agency) : String :=
  "- " ++ jvalOr a.name "Unknown Agency" ++ "\n" ++
  (if a.city.truthy then
    "  Location: " ++ a.city.toDisplay ++
      (if a.country.truthy then ", " ++ a.country.toDisplay else "") ++ "\n"
   else "") ++
  (if a.commissionRate.truthy && jvalGtZero a.commissionRate then
    "  Commission Rate: " ++ a.commissionRate.toDisplay ++ "%\n"
   else "") ++
  "\n"

/-- `_buildAgenciesSection` (no cap). -/
def buildAgenciesSection (agencies : List Agency) : String :=
  if agencies.isEmpty then "AGENCIES: No agencies found."
  else
    agencies.foldl (fun acc a => acc ++ agencyBlock a)
      ("AGENCIES (" ++ toString agencies.length ++ " total):\n")

/-- The per-agent text of `_buildAgentsSection`. -/
def agentBlock (a : Agent) : String :=
  "- " ++ jvalOr a.name "Unknown Agent" ++ "\n" ++
  (if a.email.truthy then "  Email: " ++ a.email.toDisplay ++ "\n" else "") ++
  (if a.phone.truthy then "  Phone: " ++ a.phone.toDisplay ++ "\n" else "") ++
  (if a.city.truthy then
    "  Location: " ++ a.city.toDisplay ++
      (if a.country.truthy then ", " ++ a.country.toDisplay else "") ++ "\n"
   else "") ++
  "\n"

/-- `_buildAgentsSection` (no cap). -/
def buildAgentsSection (agents : List Agent) : String :=
  if agents.isEmpty then "AGENTS: No agents found."
  else
    agents.foldl (fun acc a => acc ++ agentBlock a)
      ("AGENTS (" ++ toString agents.length ++ " total):\n")

/-- The per-meeting text of `_buildMeetingsSection`. -/
def meetingBlock (m : Meeting) : String :=
  "- " ++ formatJobDate m.date ++ ": " ++ jvalOr m.clientName "Unknown Client" ++ "\n" ++
  (if m.time.truthy then "  Time: " ++ m.time.toDisplay ++ "\n" else "") ++
  (if m.location.truthy then "  Location: " ++ m.location.toDisplay ++ "\n" else "") ++
  "\n"

/-- `_buildMeetingsSection` (caps at the first 10). -/
def buildMeetingsSection (meetings : List Meeting) : String :=
  if meetings.isEmpty then "MEETINGS: No meetings found."
  else
    (meetings.take 10).foldl (fun acc m => acc ++ meetingBlock m)
      ("MEETINGS (" ++ toString meetings.length ++ " total):\n")

/-- The per-stay text of `_buildOnStaysSection`. -/
def stayBlock (s : Stay) : String :=
  "- " ++ jvalOr s.locationName "Unknown Location" ++ "\n" ++
  (if s.checkInDate.truthy then
    "  Check-in: " ++ formatDisplayDateD (jvalToDate s.checkInDate) ++ "\n" else "") ++
  (if s.checkOutDate.truthy then
    "  Check-out: " ++ formatDisplayDateD (jvalToDate s.checkOutDate) ++ "\n" else "") ++
  "  Cost: " ++ jvalOr s.cost "TBD" ++ " " ++ jvalOr s.currency "USD" ++ "\n" ++
  "\n"

/-- `_buildOnStaysSection` (caps at the first 10). -/
def buildOnStaysSection (onStays : List Stay) : String :=
  if onStays.isEmpty then "ON STAYS: No stays found."
  else
    (onStays.take 10).foldl (fun acc s => acc ++ stayBlock s)
      ("ON STAYS (" ++ toString onStays.length ++ " total):\n")

/-- The per-shooting text of `_buildShootingsSection`. -/
def shootingBlock (sh : Shooting) : String :=
  "- " ++ formatJobDate sh.date ++ ": " ++ jvalOr sh.clientName "Unknown Client" ++ "\n" ++
  (if sh.location.truthy then "  Location: " ++ sh.location.toDisplay ++ "\n" else "") ++
  (if sh.rate.truthy then
    "  Rate: " ++ sh.rate.toDisplay ++ " " ++ jvalOr sh.currency "USD" ++ "\n" else "") ++
  "\n"

/-- `_buildShootingsSection` (caps at the first 10). -/
def buildShootingsSection (shootings : List Shooting) : String :=
  if shootings.isEmpty then "SHOOTINGS: No shootings found."
  else
    (shootings.take 10).foldl (fun acc sh => acc ++ shootingBlock sh)
      ("SHOOTINGS (" ++ toString shootings.length ++ " total):\n")

/-! ### Statistics (`_calculateStatistics`) -/

/-- One pass of the `jobs.forEach` loop of `_calculateStatistics`: total
income and upcoming/completed counters, same dead `catch` as in
`_buildJobsSection` (an unparseable truthy date increments `completedJobs`). -/
def statsStep (now : ℤ) (acc : JNum × ℕ × ℕ) (j : Job) : JNum × ℕ × ℕ :=
  let tot := if j.rate.truthy then acc.1.add ((parseFloatJV j.rate).getD JNum.zero) else acc.1
  let upc := if j.date.truthy then
      (if jdAfter (jvalToDate j.date) now then acc.2.1 + 1 else acc.2.1)
    else acc.2.1
  let cmp := if j.date.truthy then
      (if jdAfter (jvalToDate j.date) now then acc.2.2 else acc.2.2 + 1)
    else acc.2.2
  (tot, upc, cmp)

/-- `String(n)` where `n` may be `NaN`. -/
def jsNumOrNaN (o : Option ℤ) : String :=
  match o with
  | none => "NaN"
  | some n => toString n

/-- `String(x).padStart(2, "0")`. -/
def padStart2Str (s : String) : String :=
  if s.length < 2 then String.mk (List.replicate (2 - s.length) '0') ++ s else s

/-- The month key `` `${date.getFullYear()}-${String(date.getMonth() +
1).padStart(2, "0")}` `` of a possibly-invalid `Date`.  `getFullYear` and
`getMonth` of an Invalid Date are `NaN`, so the key of an unparseable date is
`"NaN-NaN"` — the `catch` meant to skip it is dead because nothing throws. -/
def monthKeyOfDate (d : Option ℤ) : String :=
  jsNumOrNaN (d.map fun ts => (civilFromDays (dayOfTs ts)).1) ++ "-" ++
    padStart2Str (jsNumOrNaN (d.map fun ts => ((civilFromDays (dayOfTs ts)).2.1 : ℤ)))

/-- `eventsByMonth[k] = (eventsByMonth[k] || 0) + 1` on an object modelled as
an association list in property-insertion order. -/
def bumpKey (l : List (String × ℕ)) (k : String) : List (String × ℕ) :=
  match l with
  | [] => [(k, 1)]
  | (k₁, n) :: rest =>
    if k₁ = k then (k₁, n + 1) :: rest else (k₁, n) :: bumpKey rest k

/-- `eventsByMonth[k]` for a key known to the object (`0` otherwise). -/
def lookupCount (l : List (String × ℕ)) (k : String) : ℕ :=
  match l with
  | [] => 0
  | (k₁, n) :: rest => if k₁ = k then n else lookupCount rest k

/-! ### The stable sort

`Array.prototype.sort` is required by ECMA-262 to be stable; together with
sortedness under the comparator and being a permutation this determines the
output uniquely, so any stable sorting algorithm is a faithful model.  We use
an insertion sort that inserts each element after existing comparator-equal
ones, which makes witnesses kernel-computable. -/

/-- Insert `x` into `l` after every element `y` with `le y x`. -/
def insertStable {α : Type} (le : α → α → Bool) (x : α) : List α → List α
  | [] => [x]
  | y :: ys => if le y x then y :: insertStable le x ys else x :: y :: ys

/-- Stable sort by `le` (a total preorder). -/
def sortStable {α : Type} (le : α → α → Bool) (l : List α) : List α :=
  l.foldl (fun acc x => insertStable le x acc) []

/-- Lexicographic comparison on code points — the default
`Array.prototype.sort()` string comparison (the keys sorted here are ASCII). -/
def charListLe : List Char → List Char → Bool
  | [], _ => true
  | _ :: _, [] => false
  | a :: as, b :: bs =>
    if a.toNat < b.toNat then true
    else if b.toNat < a.toNat then false
    else charListLe as bs

/-- Default JavaScript string sort order. -/
def strLeJs (a b : String) : Bool := charListLe a.data b.data

/-- The `eventsByMonth` object of `_calculateStatistics`: one pass over
`[...jobs, ...events]` (of which only the `date` property is read), bumping
the month key of every record with a truthy date. -/
def eventsByMonthOf (jobs : List Job) (events : List Event) : List (String × ℕ) :=
  (jobs.map (·.date) ++ events.map (·.date)).foldl
    (fun acc v => if v.truthy then bumpKey acc (monthKeyOfDate (jvalToDate v)) else acc) []

/-- `_calculateStatistics(jobs, events)`; `now` is its `new Date()` sample.
The body's `try` never fires in the embedding (nothing throws on well-typed
records), so the `"STATISTICS: Error calculating statistics."` fallback is
modelled in the exception-structure model of the assembler instead. -/
def calculateStatistics (jobs : List Job) (events : List Event) (now : ℤ) : String :=
  let t := jobs.foldl (statsStep now) (JNum.zero, 0, 0)
  let ebm := eventsByMonthOf jobs events
  let base := "STATISTICS:\n" ++
    "- Total Income: $" ++ t.1.toFixed2 ++ " USD\n" ++
    "- Total Jobs: " ++ toString jobs.length ++ "\n" ++
    "- Upcoming Jobs: " ++ toString t.2.1 ++ "\n" ++
    "- Completed Jobs: " ++ toString t.2.2 ++ "\n" ++
    "- Total Events: " ++ toString events.length ++ "\n"
  if ebm.isEmpty then base
  else
    let sorted := sortStable strLeJs (ebm.map (·.1))
    (sorted.drop (sorted.length - 6)).foldl
      (fun acc k => acc ++ ("  " ++ k ++ ": " ++ toString (lookupCount ebm k) ++ " events\n"))
      (base ++ "- Activity by Month:\n")

/-! ### Calendar merger (`_getCalendarSummary`) -/

/-- An entry of the `upcomingEvents` array: `{type, title, date, time,
location}` with a valid (strictly future) date. -/
structure CalItem where
  ctype : String
  title : String
  dateTs : ℤ
  time : String
  location : String
deriving DecidableEq

/-- The comparator `(a, b) => a.date - b.date` as a total preorder. -/
def calLe (a b : CalItem) : Bool := a.dateTs ≤ b.dateTs

/-- The `jobs.forEach` push of `_getCalendarSummary`: kept only when the date
field is truthy, parses to a valid date and is strictly after `now`. -/
def jobCalEntry (now : ℤ) (j : Job) : Option CalItem :=
  if j.date.truthy then
    match jvalToDate j.date with
    | some t =>
      if now < t then
        some ⟨"job", jvalOr j.clientName "Unknown Client", t,
          jvalOr j.time "", jvalOr j.location ""⟩
      else none
    | none => none
  else none

/-- The `events.forEach` push: the category is the enum tail of
`event.type.toString().split(".").pop()` (or `"event"`). -/
def eventCalEntry (now : ℤ) (e : Event) : Option CalItem :=
  if e.date.truthy then
    match jvalToDate e.date with
    | some t =>
      if now < t then
        some ⟨(if e.type.truthy then (splitOnDot e.type.toDisplay).getLastD "" else "event"),
          jvalOr e.clientName "Event", t, jvalOr e.startTime "", jvalOr e.location ""⟩
      else none
    | none => none
  else none

/-- The `meetings.forEach` push. -/
def meetingCalEntry (now : ℤ) (m : Meeting) : Option CalItem :=
  if m.date.truthy then
    match jvalToDate m.date with
    | some t =>
      if now < t then
        some ⟨"meeting", jvalOr m.clientName "Unknown Client", t,
          jvalOr m.time "", jvalOr m.location ""⟩
      else none
    | none => none
  else none

/-- The `upcomingEvents` array before sorting: jobs pushed first, then
events, then meetings, each in input order. -/
def upcomingCandidates (now : ℤ) (jobs : List Job) (events : List Event)
    (meetings : List Meeting) : List CalItem :=
  jobs.filterMap (jobCalEntry now) ++ events.filterMap (eventCalEntry now) ++
    meetings.filterMap (meetingCalEntry now)

/-- The per-item text of the calendar summary loop. -/
def calItemBlock (it : CalItem) : String :=
  "- " ++ formatDisplayDateD (some it.dateTs) ++
    (if it.time ≠ "" then " at " ++ it.time else "") ++ ": " ++
    jsToUpper it.ctype ++ " - " ++ it.title ++ "\n" ++
  (if it.location ≠ "" then "  Location: " ++ it.location ++ "\n" else "") ++
  "\n"

/-- `_getCalendarSummary(jobs, events, meetings)`; `now` is its single
`new Date()` sample.  As with the statistics, its `catch` fallback lives in
the exception-structure model. -/
def getCalendarSummary (jobs : List Job) (events : List Event)
    (meetings : List Meeting) (now : ℤ) : String :=
  let tops := (sortStable calLe (upcomingCandidates now jobs events meetings)).take 10
  if tops.isEmpty then "UPCOMING CALENDAR: No upcoming events scheduled."
  else
    tops.foldl (fun acc it => acc ++ calItemBlock it)
      ("UPCOMING CALENDAR (Next " ++ toString tops.length ++ " Events):\n")

/-! ### The assembler (`buildUserContext`) -/

/-- The record bundle (`userData`): each recognized key either absent
(`none`, covering `undefined` and the destructuring default) or present.
An explicitly `null` collection behaves exactly like an absent one (the
formatters guard with `!xs ||`), so it is also modelled by `none`. -/
structure Bundle where
  userProfile : Option Profile := none
  jobs : Option (List Job) := none
  events : Option (List Event) := none
  aiJobs : Option (List AiJob) := none
  agencies : Option (List Agency) := none
  agents : Option (List Agent) := none
  meetings : Option (List Meeting) := none
  onStays : Option (List Stay) := none
  shootings : Option (List Shooting) := none

/-- The template literal of `buildUserContext` (lines 47–94), written
right-nested so that each literal chunk is a separate append operand. -/
def assembleContext (profileS jobsS eventsS aiJobsS agenciesS agentsS
    meetingsS onStaysS shootingsS statisticsS calendarS curDate curTime :
    String) : String :=
  "\nYou are an AI assistant for a modeling professional using Model Day. You have access to ONLY their data and can help analyze it and provide insights.\n\nCURRENT USER DATA CONTEXT:\n" ++
  (profileS ++
  ("\n\nJOBS DATA:\n" ++
  (jobsS ++
  ("\n\nEVENTS DATA:\n" ++
  (eventsS ++
  ("\n\nAI JOBS DATA:\n" ++
  (aiJobsS ++
  ("\n\nAGENCIES DATA:\n" ++
  (agenciesS ++
  ("\n\nAGENTS DATA:\n" ++
  (agentsS ++
  ("\n\nMEETINGS DATA:\n" ++
  (meetingsS ++
  ("\n\nON STAYS DATA:\n" ++
  (onStaysS ++
  ("\n\nSHOOTINGS DATA:\n" ++
  (shootingsS ++
  ("\n\nSTATISTICS:\n" ++
  (statisticsS ++
  ("\n\nUPCOMING CALENDAR (Next 10 Events):\n" ++
  (calendarS ++
  ("\n\nCurrent Date: " ++
  (curDate ++
  ("\nCurrent Time: " ++
  (curTime ++
  "\n\nProvide helpful, professional responses based on the actual data. Consider:\n1. Financial insights: Total earnings, booking rates, job trends\n2. Calendar management: Upcoming events, schedule conflicts, busy periods\n3. Career development: Patterns in castings, successful job types, agent relationships\n4. Network analysis: Industry contacts, agency relationships\n5. Activity trends: Monthly or seasonal patterns in bookings and events\n\nIf calculating totals or analyzing trends, show actual numbers. If asked about something not in the data, let them know politely. Maintain a friendly, professional tone.\n")))))))))))))))))))))))))

/-- `ContextService.buildUserContext(userData)`.  `clock` is the sequence of
`new Date()` wall-clock samples, in the order the source takes them: index 0
inside `_buildJobsSection` (line 146), 1 inside `_calculateStatistics` (line
430), 2 inside `_getCalendarSummary` (line 505), and 3 and 4 for the
`Current Date` / `Current Time` lines of the template (lines 83–84).  On
well-typed bundles nothing in the body throws, so the outer `catch` of the
source is modelled separately (`buildUserContextResult`). -/
def buildUserContext (userData : Option Bundle) (clock : ℕ → ℤ) : String :=
  let b := userData.getD {}
  let jobs := b.jobs.getD []
  let events := b.events.getD []
  let meetings := b.meetings.getD []
  assembleContext
    (buildUserProfileSection b.userProfile)
    (buildJobsSection jobs (clock 0))
    (buildEventsSection events)
    (buildAiJobsSection (b.aiJobs.getD []))
    (buildAgenciesSection (b.agencies.getD []))
    (buildAgentsSection (b.agents.getD []))
    (buildMeetingsSection meetings)
    (buildOnStaysSection (b.onStays.getD []))
    (buildShootingsSection (b.shootings.getD []))
    (calculateStatistics jobs events (clock 1))
    (getCalendarSummary jobs events meetings (clock 2))
    (formatDisplayDateD (some (clock 3)))
    (formatTimeD (some (clock 4)))

/-! ### Exception structure of `buildUserContext` (lines 12–102)

JavaScript section builders can in principle throw; the embedding of the
control flow abstracts each builder's outcome as an `Except Unit String`
(`.error ()` = the builder threw).  The source has exactly one try/catch
around the whole body of `buildUserContext` (lines 13–101, fallback
`"Error gathering user data. Please try again."`), plus one *inside*
`_calculateStatistics` (lines 425–492) and one *inside* `_getCalendarSummary`
(lines 503–592); the eight data-section builders and the profile builder have
no local handler, so an exception in any of them propagates to the outer
catch and discards the entire assembly. -/

/-- The internal try/catch of `_calculateStatistics` / `_getCalendarSummary`:
produce the section, or the category-specific error line. -/
def sectionOrFallback (r : Except Unit String) (msg : String) : String :=
  match r with
  | .ok s => s
  | .error _ => msg

/-- The body of `buildUserContext` inside its try: sections are built in
source order; the first throwing builder aborts the rest; the statistics and
calendar cores are individually guarded by their own internal catch. -/
def buildUserContextExc (profileR jobsR eventsR aiJobsR agenciesR agentsR
    meetingsR onStaysR shootingsR : Except Unit String)
    (statsCore calCore : Except Unit String) (curDate curTime : String) :
    Except Unit String := do
  let p ← profileR
  let j ← jobsR
  let e ← eventsR
  let a ← aiJobsR
  let g ← agenciesR
  let t ← agentsR
  let m ← meetingsR
  let o ← onStaysR
  let s ← shootingsR
  pure (assembleContext p j e a g t m o s
    (sectionOrFallback statsCore "STATISTICS: Error calculating statistics.")
    (sectionOrFallback calCore "UPCOMING CALENDAR: Error loading calendar data.")
    curDate curTime)

/-- `buildUserContext` with its outer catch (lines 98–101): any exception
escaping a section builder yields the global fallback string. -/
def buildUserContextResult (profileR jobsR eventsR aiJobsR agenciesR agentsR
    meetingsR onStaysR shootingsR statsCore calCore : Except Unit String)
    (curDate curTime : String) : String :=
  match buildUserContextExc profileR jobsR eventsR aiJobsR agenciesR agentsR
      meetingsR onStaysR shootingsR statsCore calCore curDate curTime with
  | .ok s => s
  | .error _ => "Error gathering user data. Please try again."

/-! ### Specification-side helper definitions -/

/-- Substring containment, the specification-side reading of "the output
contains the label". -/
def containsStr (needle hay : String) : Prop := needle.data <:+: hay.data

instance (n h : String) : Decidable (containsStr n h) :=
  inferInstanceAs (Decidable (n.data <:+: h.data))

/-- Join of the per-record block texts, the normal form the formatter
`foldl`s are proved equal to. -/
def concatMapStr {α : Type} (f : α → String) (l : List α) : String :=
  l.foldl (fun acc x => acc ++ f x) ""

/-- The per-job contribution to the income totals: `parseFloat(rate) || 0`
for a truthy rate, `0` otherwise. -/
def jobRateContribution (j : Job) : JNum :=
  if j.rate.truthy then (parseFloatJV j.rate).getD JNum.zero else JNum.zero

/-- Totals as accumulated by the `_calculateStatistics` loop. -/
def statsTotals (jobs : List Job) (now : ℤ) : JNum × ℕ × ℕ :=
  jobs.foldl (statsStep now) (JNum.zero, 0, 0)

/-- Left fold of `JNum.add`, the specification-side sum. -/
def jnumSum (l : List JNum) : JNum := l.foldl JNum.add JNum.zero

/-! ### Concrete records used by the claim instances -/

/-- A job with a malformed date string and a numeric rate. -/
def invalidDateJob : Job :=
  { date := .str "not-a-date", clientName := .str "Acme", rate := .num ⟨100, 1⟩ }

/-- A job with a malformed date string and rate 2500. -/
def nanJob : Job := { date := .str "not-a-date", rate := .num ⟨2500, 1⟩ }

/-- An event with a malformed date string. -/
def invalidDateEvent : Event := { date := .str "not-a-date" }

def rate2500Job : Job := { rate := .num ⟨2500, 1⟩ }

def rate5000Job : Job := { rate := .num ⟨5000, 1⟩ }

def rate3000Job : Job := { rate := .num ⟨3000, 1⟩ }

/-- A job whose rate field is a non-numeric string. -/
def abcRateJob : Job := { rate := .str "abc" }

/-- Three future-dated records sharing one date, one per category. -/
def tieJob : Job := { date := .str "2030-01-05", clientName := .str "JobClient" }

def tieEvent : Event :=
  { date := .str "2030-01-05", clientName := .str "EventClient", type := .str "EventType.casting" }

def tieMeeting : Meeting := { date := .str "2030-01-05", clientName := .str "MeetClient" }

/-- An AI job none of whose rendered fields contains the digit `3`. -/
def plainAiJob : AiJob := { clientName := .str "A" }

/-- A bundle with a single future-dated job (cutoff-sensitivity input). -/
def clockBundle : Bundle := { jobs := some [{ date := .str "2030-01-05" }] }

/-- Output of the assembler when the jobs-section builder throws and every
other builder succeeds with its empty-collection text. -/
def jobsThrowOutput : String :=
  buildUserContextResult (.ok "USER PROFILE: Profile not found.") (.error ())
    (.ok "EVENTS: No events found.") (.ok "AI JOBS: No AI jobs found.")
    (.ok "AGENCIES: No agencies found.") (.ok "AGENTS: No agents found.")
    (.ok "MEETINGS: No meetings found.") (.ok "ON STAYS: No stays found.")
    (.ok "SHOOTINGS: No shootings found.") (.ok "STATS") (.ok "CAL") "D" "T"

/-! ## Lemmas -/

/-! ### Substring containment -/

theorem containsStr_append_left {n a : String} (b : String)
    (h : containsStr n a) : containsStr n (a ++ b) := by
  unfold containsStr at *
  rw [String.data_append]
  exact h.trans (by simpa using List.infix_append [] a.data b.data)

theorem containsStr_append_right {n b : String} (a : String)
    (h : containsStr n b) : containsStr n (a ++ b) := by
  unfold containsStr at *
  rw [String.data_append]
  exact h.trans (by simpa using List.infix_append a.data b.data [])

theorem containsStr_ne_empty {n h : String} (hc : containsStr n h)
    (hn : n ≠ "") : h ≠ "" := by
  intro he
  apply hn
  obtain ⟨s, t, hst⟩ := hc
  rw [he] at hst
  have hdata : s ++ n.data ++ t = ([] : List Char) := hst
  have h₁ := (List.append_eq_nil.mp hdata).1
  have h₂ := (List.append_eq_nil.mp h₁).2
  cases n with
  | mk d =>
    cases h₂
    rfl

/-! ### Folds that append text -/

theorem foldl_append_from {α : Type} (f : α → String) (l : List α) :
    ∀ h : String, List.foldl (fun acc x => acc ++ f x) h l = h ++ concatMapStr f l := by
  induction l with
  | nil => intro h; simp [concatMapStr, String.append_empty]
  | cons x xs ih =>
    intro h
    simp only [List.foldl_cons]
    rw [ih (h ++ f x)]
    have h2 : concatMapStr f (x :: xs) = f x ++ concatMapStr f xs := by
      show List.foldl (fun acc y => acc ++ f y) "" (x :: xs) = _
      simp only [List.foldl_cons]
      rw [ih ("" ++ f x), String.empty_append]
    rw [h2, String.append_assoc]

theorem concatMapStr_cons {α : Type} (f : α → String) (x : α) (xs : List α) :
    concatMapStr f (x :: xs) = f x ++ concatMapStr f xs := by
  show List.foldl (fun acc y => acc ++ f y) "" (x :: xs) = _
  simp only [List.foldl_cons]
  rw [foldl_append_from f xs ("" ++ f x), String.empty_append]

/-! ### `JNum` sums -/

theorem JNum.zero_add (a : JNum) : JNum.zero.add a = a := by
  cases a with
  | mk n d =>
    unfold JNum.add JNum.zero
    rw [JNum.mk.injEq]
    constructor
    · push_cast
      ring
    · exact Nat.one_mul d

theorem JNum.add_zero (a : JNum) : a.add JNum.zero = a := by
  cases a with
  | mk n d =>
    unfold JNum.add JNum.zero
    rw [JNum.mk.injEq]
    constructor
    · push_cast
      ring
    · exact Nat.mul_one d

theorem JNum.add_assoc (a b c : JNum) : (a.add b).add c = a.add (b.add c) := by
  cases a with
  | mk an ad =>
    cases b with
    | mk bn bd =>
      cases c with
      | mk cn cd =>
        unfold JNum.add
        rw [JNum.mk.injEq]
        constructor
        · push_cast
          ring
        · exact Nat.mul_assoc ad bd cd

theorem jnumSum_foldl_from (l : List JNum) :
    ∀ a : JNum, l.foldl JNum.add a = a.add (jnumSum l) := by
  induction l with
  | nil => intro a; exact (JNum.add_zero a).symm
  | cons y ys ih =>
    intro a
    simp only [List.foldl_cons]
    rw [ih (a.add y), JNum.add_assoc]
    have h2 : jnumSum (y :: ys) = y.add (jnumSum ys) := by
      show List.foldl JNum.add JNum.zero (y :: ys) = _
      simp only [List.foldl_cons]
      rw [JNum.zero_add, ih y]
    rw [h2]

theorem jnumSum_cons (x : JNum) (xs : List JNum) :
    jnumSum (x :: xs) = x.add (jnumSum xs) := by
  show List.foldl JNum.add JNum.zero (x :: xs) = _
  simp only [List.foldl_cons]
  rw [JNum.zero_add, jnumSum_foldl_from xs x]

/-- First component of the statistics fold: the running total starting from
`t` adds exactly the per-job rate contributions. -/
theorem statsFold_income (now : ℤ) (jobs : List Job) :
    ∀ (t : JNum) (u c : ℕ),
      (jobs.foldl (statsStep now) (t, u, c)).1 =
        t.add (jnumSum (jobs.map jobRateContribution)) := by
  induction jobs with
  | nil => intro t u c; exact (JNum.add_zero t).symm
  | cons j js ih =>
    intro t u c
    simp only [List.foldl_cons, List.map_cons]
    rw [jnumSum_cons, ← JNum.add_assoc]
    have hstep : (statsStep now (t, u, c) j) =
        (t.add (jobRateContribution j), (statsStep now (t, u, c) j).2.1,
          (statsStep now (t, u, c) j).2.2) := by
      unfold statsStep jobRateContribution
      by_cases hr : j.rate.truthy
      · simp [hr]
      · simp [hr, JNum.add_zero]
    rw [hstep]
    exact ih (t.add (jobRateContribution j)) _ _

/-- The jobs-section fold carries exactly the statistics totals in its first
three components and appends exactly one block per job to the text. -/
theorem jobsFold_split (now : ℤ) (jobs : List Job) :
    ∀ (t : JNum) (u c : ℕ) (s : String),
      jobs.foldl (jobsStep now) (t, u, c, s) =
        ((jobs.foldl (statsStep now) (t, u, c)).1,
         (jobs.foldl (statsStep now) (t, u, c)).2.1,
         (jobs.foldl (statsStep now) (t, u, c)).2.2,
         s ++ concatMapStr jobBlock jobs) := by
  induction jobs with
  | nil => intro t u c s; simp [concatMapStr, String.append_empty]
  | cons j js ih =>
    intro t u c s
    simp only [List.foldl_cons]
    rw [concatMapStr_cons, ← String.append_assoc]
    have hstep : jobsStep now (t, u, c, s) j =
        ((statsStep now (t, u, c) j).1, (statsStep now (t, u, c) j).2.1,
          (statsStep now (t, u, c) j).2.2, s ++ jobBlock j) := by
      unfold jobsStep statsStep
      rfl
    rw [hstep]
    exact ih _ _ _ _

/-! ### The stable sort: sortedness, permutation, stability -/

section SortTheory

variable {α : Type} (le : α → α → Bool)

theorem insertStable_perm (x : α) (l : List α) :
    List.Perm (insertStable le x l) (x :: l) := by
  induction l with
  | nil => exact List.Perm.refl _
  | cons y ys ih =>
    unfold insertStable
    by_cases h : le y x
    · rw [if_pos h]
      exact (ih.cons y).trans (List.Perm.swap x y ys)
    · rw [if_neg h]

theorem sortStable_perm (l : List α) : List.Perm (sortStable le l) l := by
  have haux : ∀ (l acc : List α),
      List.Perm (l.foldl (fun acc x => insertStable le x acc) acc) (acc ++ l) := by
    intro l
    induction l with
    | nil => intro acc; simp
    | cons x xs ih =>
      intro acc
      simp only [List.foldl_cons]
      refine (ih (insertStable le x acc)).trans ?_
      refine ((insertStable_perm le x acc).append_right xs).trans ?_
      simpa using (@List.perm_middle _ x acc xs).symm
  simpa using haux l []

theorem mem_insertStable {x z : α} {l : List α} :
    z ∈ insertStable le x l ↔ z = x ∨ z ∈ l := by
  rw [(insertStable_perm le x l).mem_iff, List.mem_cons]

theorem pairwise_insertStable
    (htot : ∀ a b, le a b || le b a)
    (htr : ∀ a b c, le a b → le b c → le a c)
    (x : α) {l : List α} (hl : l.Pairwise (fun a b => le a b)) :
    (insertStable le x l).Pairwise (fun a b => le a b) := by
  induction l with
  | nil => simp [insertStable]
  | cons y ys ih =>
    rw [List.pairwise_cons] at hl
    obtain ⟨hy, hys⟩ := hl
    unfold insertStable
    by_cases h : le y x
    · rw [if_pos h]
      rw [List.pairwise_cons]
      constructor
      · intro z hz
        rcases (mem_insertStable le).mp hz with hz | hz
        · cases hz; exact h
        · exact hy z hz
      · exact ih hys
    · rw [if_neg h]
      rw [List.pairwise_cons]
      constructor
      · intro z hz
        rcases List.mem_cons.mp hz with hz | hz
        · subst hz
          rcases Bool.or_eq_true_iff.mp (htot x z) with h1 | h1
          · exact h1
          · exact absurd h1 h
        · have hxy : le x y := by
            rcases Bool.or_eq_true_iff.mp (htot x y) with h1 | h1
            · exact h1
            · exact absurd h1 h
          exact htr x y z hxy (hy z hz)
      · rw [List.pairwise_cons]
        exact ⟨hy, hys⟩

theorem sortStable_pairwise
    (htot : ∀ a b, le a b || le b a)
    (htr : ∀ a b c, le a b → le b c → le a c)
    (l : List α) : (sortStable le l).Pairwise (fun a b => le a b) := by
  have haux : ∀ (l acc : List α), acc.Pairwise (fun a b => le a b) →
      (l.foldl (fun acc x => insertStable le x acc) acc).Pairwise (fun a b => le a b) := by
    intro l
    induction l with
    | nil => intro acc h; exact h
    | cons x xs ih =>
      intro acc h
      simp only [List.foldl_cons]
      exact ih _ (pairwise_insertStable le htot htr x h)
  exact haux l [] List.Pairwise.nil

theorem filter_insertStable_pos (p : α → Bool)
    (htr : ∀ a b c, le a b → le b c → le a c)
    {x : α} (hx : p x = true)
    (hcls : ∀ z, p z = true → le z x = true ∧ le x z = true)
    {l : List α} (hl : l.Pairwise (fun a b => le a b)) :
    (insertStable le x l).filter p = l.filter p ++ [x] := by
  induction l with
  | nil => simp [insertStable, hx]
  | cons y ys ih =>
    rw [List.pairwise_cons] at hl
    obtain ⟨hy, hys⟩ := hl
    unfold insertStable
    by_cases h : le y x
    · rw [if_pos h]
      by_cases hpy : p y
      · simp [List.filter_cons, hpy, ih hys]
      · simp [List.filter_cons, hpy, ih hys]
    · rw [if_neg h]
      have hnil : (y :: ys).filter p = [] := by
        rw [List.filter_eq_nil_iff]
        intro z hz hpz
        rcases List.mem_cons.mp hz with rfl | hz1
        · exact absurd (hcls z hpz).1 h
        · exact absurd (htr y z x (hy z hz1) (hcls z hpz).1) h
      rw [List.filter_cons_of_pos hx, hnil]
      rfl

theorem filter_insertStable_neg (p : α → Bool)
    {x : α} (hx : p x = false) (l : List α) :
    (insertStable le x l).filter p = l.filter p := by
  induction l with
  | nil => simp [insertStable, hx]
  | cons y ys ih =>
    unfold insertStable
    by_cases h : le y x
    · rw [if_pos h]
      by_cases hpy : p y
      · simp [List.filter_cons, hpy, ih]
      · simp [List.filter_cons, hpy, ih]
    · rw [if_neg h]
      rw [List.filter_cons_of_neg (by simp [hx])]

theorem filter_sortStable (p : α → Bool)
    (htot : ∀ a b, le a b || le b a)
    (htr : ∀ a b c, le a b → le b c → le a c)
    (hcls : ∀ a b, p a = true → p b = true → le a b = true)
    (l : List α) : (sortStable le l).filter p = l.filter p := by
  have haux : ∀ (l acc : List α), acc.Pairwise (fun a b => le a b) →
      (l.foldl (fun acc x => insertStable le x acc) acc).filter p =
        acc.filter p ++ l.filter p := by
    intro l
    induction l with
    | nil => intro acc _; simp
    | cons x xs ih =>
      intro acc hacc
      simp only [List.foldl_cons]
      rw [ih (insertStable le x acc) (pairwise_insertStable le htot htr x hacc)]
      by_cases hx : p x
      · rw [filter_insertStable_pos le p htr hx
          (fun z hz => ⟨hcls z x hz hx, hcls x z hx hz⟩) hacc]
        rw [List.filter_cons_of_pos hx]
        simp
      · rw [filter_insertStable_neg le p (by simpa using hx)]
        rw [List.filter_cons_of_neg hx]
  have := haux l [] List.Pairwise.nil
  simpa [sortStable] using this

end SortTheory

/-! ### Substring introduction and section decompositions -/

theorem containsStr_intro {n hay : String} (s t : String)
    (h : s ++ n ++ t = hay) : containsStr n hay := by
  rw [← h]
  unfold containsStr
  simp only [String.data_append]
  exact ⟨s.data, t.data, by simp⟩

/-- `_calculateStatistics` output starts with the income line rendered by
`toFixed(2)` from the fold total. -/
theorem calculateStatistics_decomp (jobs : List Job) (events : List Event) (now : ℤ) :
    ∃ rest : String, calculateStatistics jobs events now =
      "STATISTICS:\n" ++ ("- Total Income: $" ++
        ((statsTotals jobs now).1.toFixed2 ++ (" USD\n" ++ rest))) := by
  unfold calculateStatistics statsTotals
  dsimp only
  split
  · refine ⟨"- Total Jobs: " ++ toString jobs.length ++ "\n" ++
      "- Upcoming Jobs: " ++ toString (jobs.foldl (statsStep now) (JNum.zero, 0, 0)).2.1 ++ "\n" ++
      "- Completed Jobs: " ++ toString (jobs.foldl (statsStep now) (JNum.zero, 0, 0)).2.2 ++ "\n" ++
      "- Total Events: " ++ toString events.length ++ "\n", ?_⟩
    simp only [String.append_assoc]
  · rw [foldl_append_from]
    refine ⟨"- Total Jobs: " ++ toString jobs.length ++ "\n" ++
      "- Upcoming Jobs: " ++ toString (jobs.foldl (statsStep now) (JNum.zero, 0, 0)).2.1 ++ "\n" ++
      "- Completed Jobs: " ++ toString (jobs.foldl (statsStep now) (JNum.zero, 0, 0)).2.2 ++ "\n" ++
      "- Total Events: " ++ toString events.length ++ "\n" ++
      "- Activity by Month:\n" ++
      concatMapStr
        (fun k => "  " ++ k ++ ": " ++ toString (lookupCount (eventsByMonthOf jobs events) k) ++ " events\n")
        ((sortStable strLeJs ((eventsByMonthOf jobs events).map (fun x => x.1))).drop
          ((sortStable strLeJs ((eventsByMonthOf jobs events).map (fun x => x.1))).length - 6)), ?_⟩
    simp only [String.append_assoc]

/-- `_buildJobsSection` on a non-empty list: header with the total count, one
block per job, then the summary rendered from the fold totals. -/
theorem buildJobsSection_decomp (jobs : List Job) (now : ℤ) (h : jobs ≠ []) :
    buildJobsSection jobs now =
      "JOBS (" ++ toString jobs.length ++ " total):\n" ++
        concatMapStr jobBlock jobs ++
      "SUMMARY:\n" ++
      "- Total Earnings: $" ++ (statsTotals jobs now).1.toFixed2 ++ " USD\n" ++
      "- Upcoming Jobs: " ++ toString (statsTotals jobs now).2.1 ++ "\n" ++
      "- Completed Jobs: " ++ toString (statsTotals jobs now).2.2 ++ "\n" := by
  cases jobs with
  | nil => exact absurd rfl h
  | cons a l =>
    unfold buildJobsSection
    dsimp only
    rw [if_neg (by simp : ¬((a :: l).isEmpty = true))]
    rw [jobsFold_split]
    unfold statsTotals
    dsimp only

/-! ### Calendar comparator and entry lemmas -/

theorem calLe_total (a b : CalItem) : calLe a b || calLe b a := by
  unfold calLe
  rcases Int.le_total a.dateTs b.dateTs with h | h <;> simp [h]

theorem calLe_trans (a b c : CalItem) : calLe a b → calLe b c → calLe a c := by
  unfold calLe
  intro h1 h2
  simp only [decide_eq_true_eq] at *
  omega

theorem jobCalEntry_gt {now : ℤ} {j : Job} {it : CalItem}
    (h : jobCalEntry now j = some it) : now < it.dateTs := by
  unfold jobCalEntry at h
  split at h
  · split at h
    · split at h
      · injection h with h2
        subst h2
        assumption
      · simp at h
    · simp at h
  · simp at h

theorem eventCalEntry_gt {now : ℤ} {e : Event} {it : CalItem}
    (h : eventCalEntry now e = some it) : now < it.dateTs := by
  unfold eventCalEntry at h
  split at h
  · split at h
    · split at h
      · injection h with h2
        subst h2
        assumption
      · simp at h
    · simp at h
  · simp at h

theorem meetingCalEntry_gt {now : ℤ} {m : Meeting} {it : CalItem}
    (h : meetingCalEntry now m = some it) : now < it.dateTs := by
  unfold meetingCalEntry at h
  split at h
  · split at h
    · split at h
      · injection h with h2
        subst h2
        assumption
      · simp at h
    · simp at h
  · simp at h

theorem jobCalEntry_none {now : ℤ} {j : Job}
    (h : ¬ j.date.truthy ∨ jvalToDate j.date = none) : jobCalEntry now j = none := by
  unfold jobCalEntry
  rcases h with h | h
  · rw [if_neg h]
  · by_cases hd : j.date.truthy
    · rw [if_pos hd, h]
    · rw [if_neg hd]

theorem eventCalEntry_none {now : ℤ} {e : Event}
    (h : ¬ e.date.truthy ∨ jvalToDate e.date = none) : eventCalEntry now e = none := by
  unfold eventCalEntry
  rcases h with h | h
  · rw [if_neg h]
  · by_cases hd : e.date.truthy
    · rw [if_pos hd, h]
    · rw [if_neg hd]

theorem meetingCalEntry_none {now : ℤ} {m : Meeting}
    (h : ¬ m.date.truthy ∨ jvalToDate m.date = none) : meetingCalEntry now m = none := by
  unfold meetingCalEntry
  rcases h with h | h
  · rw [if_neg h]
  · by_cases hd : m.date.truthy
    · rw [if_pos hd, h]
    · rw [if_neg hd]

/-! ## Claim theorems -/

/-- C3: for every record category, an empty input collection (and an empty
`userProfile` object) makes the corresponding section formatter return
exactly its single "no records found" sentence — no header line and no
per-record blocks. -/
theorem claim3_empty_sections_exact (now : ℤ) :
    buildUserProfileSection none = "USER PROFILE: Profile not found." ∧
    buildJobsSection [] now = "JOBS: No jobs found." ∧
    buildEventsSection [] = "EVENTS: No events found." ∧
    buildAiJobsSection [] = "AI JOBS: No AI jobs found." ∧
    buildAgenciesSection [] = "AGENCIES: No agencies found." ∧
    buildAgentsSection [] = "AGENTS: No agents found." ∧
    buildMeetingsSection [] = "MEETINGS: No meetings found." ∧
    buildOnStaysSection [] = "ON STAYS: No stays found." ∧
    buildShootingsSection [] = "SHOOTINGS: No shootings found." :=
  ⟨rfl, rfl, rfl, rfl, rfl, rfl, rfl, rfl, rfl⟩

/-- C4 (code bug): on a job dated `"not-a-date"` the jobs section renders
`"Invalid Date"` (the `toLocaleDateString` output), not the raw string — the
raw-string `catch` fallback of `_formatJobDate` is dead because `new Date`
never throws — and the job is counted as a *completed* job (`InvalidDate >
now` is false, so the `else` branch increments `completedJobs`), contradicting
the claim that it is counted in neither bucket. -/
theorem claim4_invalid_date_behavior :
    buildJobsSection [invalidDateJob] 1717243335000 =
      "JOBS (1 total):\n- Invalid Date: Acme (Job)\n  Rate: 100 USD | Status: Unknown | Payment: Unknown\n  Location: TBD\n\nSUMMARY:\n- Total Earnings: $100.00 USD\n- Upcoming Jobs: 0\n- Completed Jobs: 1\n" ∧
    formatJobDate (JVal.str "not-a-date") = "Invalid Date" ∧
    ¬ containsStr "not-a-date" (buildJobsSection [invalidDateJob] 1717243335000) ∧
    (statsTotals [invalidDateJob] 1717243335000).2.1 = 0 ∧
    (statsTotals [invalidDateJob] 1717243335000).2.2 = 1 := by
  decide

/-- C6 (code bug): a record with an unparseable date is *not* excluded from
the month histogram — `getFullYear`/`getMonth` of an Invalid Date are `NaN`,
so it is bucketed under the key `"NaN-NaN"`, which is counted and rendered;
meanwhile its rate still reaches the income total. -/
theorem claim6_nan_bucket :
    calculateStatistics [nanJob] [invalidDateEvent] 0 =
      "STATISTICS:\n- Total Income: $2500.00 USD\n- Total Jobs: 1\n- Upcoming Jobs: 0\n- Completed Jobs: 1\n- Total Events: 1\n- Activity by Month:\n  NaN-NaN: 2 events\n" ∧
    containsStr "NaN-NaN: 2 events" (calculateStatistics [nanJob] [invalidDateEvent] 0) ∧
    containsStr "- Total Income: $2500.00 USD" (calculateStatistics [nanJob] [invalidDateEvent] 0) ∧
    monthKeyOfDate (jvalToDate (JVal.str "not-a-date")) = "NaN-NaN" := by
  decide

/-- C7, counterexample: the AI-jobs formatter's header is the bare
`"AI JOBS:"`; for a three-element collection whose rendered fields contain no
digit `3`, the whole section does not contain the count `"3"` anywhere, so
the formatter does not "return a header line containing the collection's
total count". -/
theorem claim7_counterexample :
    buildAiJobsSection [plainAiJob, plainAiJob, plainAiJob] =
      "AI JOBS:\n- Date TBD: A (AI Job)\n  Rate: Rate TBD | Status: Unknown | Payment: Unknown\n\n- Date TBD: A (AI Job)\n  Rate: Rate TBD | Status: Unknown | Payment: Unknown\n\n- Date TBD: A (AI Job)\n  Rate: Rate TBD | Status: Unknown | Payment: Unknown\n\n" ∧
    [plainAiJob, plainAiJob, plainAiJob].length = 3 ∧
    ¬ containsStr "3" (buildAiJobsSection [plainAiJob, plainAiJob, plainAiJob]) := by
  decide

/-- C9, counterexample: two runs on the same bundle whose *first* clock
sample agrees can produce different output, because the wall clock is
re-sampled inside `_calculateStatistics`, `_getCalendarSummary` and the
template footer: here the first sample (used by the jobs section) agrees, the
later samples cross the job's date, and the outputs differ. -/
theorem claim9_counterexample :
    (fun _ : ℕ => (0 : ℤ)) 0 = (fun i : ℕ => if i = 0 then (0 : ℤ) else 1900000000000) 0 ∧
    buildUserContext (some clockBundle) (fun _ => 0) ≠
      buildUserContext (some clockBundle) (fun i => if i = 0 then 0 else 1900000000000) := by
  exact ⟨rfl, by decide⟩

/-- C2: a `null` (absent) bundle is treated as all-empty; `buildUserContext`
returns a non-empty string containing all nine section labels, whatever the
wall clock reads. -/
theorem claim2_null_bundle_all_labels (clock : ℕ → ℤ) :
    buildUserContext none clock ≠ "" ∧
    containsStr "JOBS DATA:" (buildUserContext none clock) ∧
    containsStr "EVENTS DATA:" (buildUserContext none clock) ∧
    containsStr "AI JOBS DATA:" (buildUserContext none clock) ∧
    containsStr "AGENCIES DATA:" (buildUserContext none clock) ∧
    containsStr "AGENTS DATA:" (buildUserContext none clock) ∧
    containsStr "MEETINGS DATA:" (buildUserContext none clock) ∧
    containsStr "ON STAYS DATA:" (buildUserContext none clock) ∧
    containsStr "SHOOTINGS DATA:" (buildUserContext none clock) ∧
    containsStr "STATISTICS:" (buildUserContext none clock) := by
  have hj : containsStr "JOBS DATA:" (buildUserContext none clock) := by
    simp only [buildUserContext, assembleContext]
    repeat
      first
      | (apply containsStr_append_left
         decide)
      | apply containsStr_append_right
  refine ⟨containsStr_ne_empty hj (by decide), hj, ?_, ?_, ?_, ?_, ?_, ?_, ?_, ?_⟩
  all_goals
    simp only [buildUserContext, assembleContext]
    repeat
      first
      | (apply containsStr_append_left
         decide)
      | apply containsStr_append_right

/-- C5: the statistics total income is the sum over all jobs of the rate
contribution (`parseFloat(rate) || 0` when the rate is truthy, else `0`:
absent, falsy and unparseable rates contribute nothing), and it is rendered
by `toFixed(2)`; in particular for rates `[2500, 5000, 3000]` it renders
`"10500.00"`. -/
theorem claim5_total_income (jobs : List Job) (events : List Event) (now : ℤ) :
    ((statsTotals jobs now).1 = jnumSum (jobs.map jobRateContribution)) ∧
    (∀ j : Job, ¬ j.rate.truthy → jobRateContribution j = JNum.zero) ∧
    (∀ j : Job, ∀ s : String, j.rate = .str s → parseFloatChars s.data = none →
      jobRateContribution j = JNum.zero) ∧
    containsStr ("- Total Income: $" ++ (statsTotals jobs now).1.toFixed2 ++ " USD\n")
      (calculateStatistics jobs events now) ∧
    (jnumSum ([rate2500Job, rate5000Job, rate3000Job].map jobRateContribution)).toFixed2 =
      "10500.00" ∧
    containsStr "- Total Income: $10500.00 USD"
      (calculateStatistics [rate2500Job, rate5000Job, rate3000Job] [] 0) := by
  refine ⟨?_, ?_, ?_, ?_, by decide, by decide⟩
  · have := statsFold_income now jobs JNum.zero 0 0
    unfold statsTotals
    rw [this, JNum.zero_add]
  · intro j hj
    unfold jobRateContribution
    rw [if_neg hj]
  · intro j s hs hparse
    unfold jobRateContribution
    by_cases hj : j.rate.truthy
    · rw [if_pos hj]
      rw [show parseFloatJV j.rate = none from by rw [hs]; simpa [parseFloatJV] using hparse]
      rfl
    · rw [if_neg hj]
  · obtain ⟨rest, hr⟩ := calculateStatistics_decomp jobs events now
    refine containsStr_intro "STATISTICS:\n" rest ?_
    rw [hr]
    simp only [String.append_assoc]

/-- C5 witness: the theorem applied at concrete inputs, discharging its
inner hypotheses at the unparseable rate `"abc"`. -/
theorem claim5_witness :
    jobRateContribution abcRateJob = JNum.zero ∧
    (statsTotals [rate2500Job] 0).1 = jnumSum ([rate2500Job].map jobRateContribution) :=
  ⟨(claim5_total_income [] [] 0).2.2.1 abcRateJob "abc" rfl (by decide),
   (claim5_total_income [rate2500Job] [] 0).1⟩

/-- C10: for a fixed clock reading, the figures of the jobs-section SUMMARY
block (total earnings, upcoming count, completed count) coincide with the
figures of the STATISTICS section — both loops compute the same fold — and
both sections render the very same `toFixed(2)` string and count numerals. -/
theorem claim10_summary_equals_statistics (jobs : List Job) (events : List Event) (now : ℤ) :
    ((jobs.foldl (jobsStep now)
        (JNum.zero, 0, 0, "JOBS (" ++ toString jobs.length ++ " total):\n")).1 =
      (statsTotals jobs now).1) ∧
    ((jobs.foldl (jobsStep now)
        (JNum.zero, 0, 0, "JOBS (" ++ toString jobs.length ++ " total):\n")).2.1 =
      (statsTotals jobs now).2.1) ∧
    ((jobs.foldl (jobsStep now)
        (JNum.zero, 0, 0, "JOBS (" ++ toString jobs.length ++ " total):\n")).2.2.1 =
      (statsTotals jobs now).2.2) ∧
    (jobs ≠ [] → containsStr ("- Total Earnings: $" ++ (statsTotals jobs now).1.toFixed2 ++ " USD\n")
      (buildJobsSection jobs now)) ∧
    containsStr ("- Total Income: $" ++ (statsTotals jobs now).1.toFixed2 ++ " USD\n")
      (calculateStatistics jobs events now) ∧
    (jobs ≠ [] → containsStr ("- Upcoming Jobs: " ++ toString (statsTotals jobs now).2.1 ++ "\n")
      (buildJobsSection jobs now)) ∧
    (jobs ≠ [] → containsStr ("- Completed Jobs: " ++ toString (statsTotals jobs now).2.2 ++ "\n")
      (buildJobsSection jobs now)) := by
  have hsplit := jobsFold_split now jobs JNum.zero 0 0
    ("JOBS (" ++ toString jobs.length ++ " total):\n")
  refine ⟨by rw [hsplit]; rfl, by rw [hsplit]; rfl, by rw [hsplit]; rfl, ?_, ?_, ?_, ?_⟩
  · intro h
    refine containsStr_intro
      ("JOBS (" ++ toString jobs.length ++ " total):\n" ++ concatMapStr jobBlock jobs ++
        "SUMMARY:\n")
      ("- Upcoming Jobs: " ++ toString (statsTotals jobs now).2.1 ++ "\n" ++
        "- Completed Jobs: " ++ toString (statsTotals jobs now).2.2 ++ "\n") ?_
    rw [buildJobsSection_decomp jobs now h]
    simp only [String.append_assoc]
  · obtain ⟨rest, hr⟩ := calculateStatistics_decomp jobs events now
    refine containsStr_intro "STATISTICS:\n" rest ?_
    rw [hr]
    simp only [String.append_assoc]
  · intro h
    refine containsStr_intro
      ("JOBS (" ++ toString jobs.length ++ " total):\n" ++ concatMapStr jobBlock jobs ++
        "SUMMARY:\n" ++ "- Total Earnings: $" ++ (statsTotals jobs now).1.toFixed2 ++ " USD\n")
      ("- Completed Jobs: " ++ toString (statsTotals jobs now).2.2 ++ "\n") ?_
    rw [buildJobsSection_decomp jobs now h]
    simp only [String.append_assoc]
  · intro h
    refine containsStr_intro
      ("JOBS (" ++ toString jobs.length ++ " total):\n" ++ concatMapStr jobBlock jobs ++
        "SUMMARY:\n" ++ "- Total Earnings: $" ++ (statsTotals jobs now).1.toFixed2 ++ " USD\n" ++
        "- Upcoming Jobs: " ++ toString (statsTotals jobs now).2.1 ++ "\n") "" ?_
    rw [buildJobsSection_decomp jobs now h]
    simp only [String.append_assoc, String.append_empty]

/-- C10 witness: the theorem applied at a concrete one-job list. -/
theorem claim10_witness :
    containsStr ("- Total Earnings: $" ++ (statsTotals [rate2500Job] 5).1.toFixed2 ++ " USD\n")
      (buildJobsSection [rate2500Job] 5) :=
  (claim10_summary_equals_statistics [rate2500Job] [] 5).2.2.2.1 (by decide)

/-- C7 (amended): every non-empty collection renders a header followed by one
block per record, capped at the first 5 records for AI jobs, 10 for meetings,
stays and shootings, 20 for events, and uncapped for jobs, agencies and
agents; every header carries the collection's total count except the AI-jobs
header, which is the bare `"AI JOBS:"`. -/
theorem claim7_amended_headers_caps (jobs : List Job) (now : ℤ) (events : List Event)
    (aiJobs : List AiJob) (agencies : List Agency) (agents : List Agent)
    (meetings : List Meeting) (onStays : List Stay) (shootings : List Shooting) :
    (jobs ≠ [] → ∃ summary : String, buildJobsSection jobs now =
      ("JOBS (" ++ toString jobs.length ++ " total):\n") ++
        (concatMapStr jobBlock jobs ++ summary)) ∧
    (events ≠ [] → buildEventsSection events =
      ("EVENTS (" ++ toString events.length ++ " total):\n") ++
        concatMapStr eventBlock (events.take 20) ∧
      (events.take 20).length = min 20 events.length) ∧
    (aiJobs ≠ [] → buildAiJobsSection aiJobs =
      "AI JOBS:\n" ++ concatMapStr aiJobBlock (aiJobs.take 5) ∧
      (aiJobs.take 5).length = min 5 aiJobs.length) ∧
    (agencies ≠ [] → buildAgenciesSection agencies =
      ("AGENCIES (" ++ toString agencies.length ++ " total):\n") ++
        concatMapStr agencyBlock agencies) ∧
    (agents ≠ [] → buildAgentsSection agents =
      ("AGENTS (" ++ toString agents.length ++ " total):\n") ++
        concatMapStr agentBlock agents) ∧
    (meetings ≠ [] → buildMeetingsSection meetings =
      ("MEETINGS (" ++ toString meetings.length ++ " total):\n") ++
        concatMapStr meetingBlock (meetings.take 10) ∧
      (meetings.take 10).length = min 10 meetings.length) ∧
    (onStays ≠ [] → buildOnStaysSection onStays =
      ("ON STAYS (" ++ toString onStays.length ++ " total):\n") ++
        concatMapStr stayBlock (onStays.take 10) ∧
      (onStays.take 10).length = min 10 onStays.length) ∧
    (shootings ≠ [] → buildShootingsSection shootings =
      ("SHOOTINGS (" ++ toString shootings.length ++ " total):\n") ++
        concatMapStr shootingBlock (shootings.take 10) ∧
      (shootings.take 10).length = min 10 shootings.length) := by
  refine ⟨?_, ?_, ?_, ?_, ?_, ?_, ?_, ?_⟩
  · intro h
    refine ⟨"SUMMARY:\n" ++ "- Total Earnings: $" ++ (statsTotals jobs now).1.toFixed2 ++
      " USD\n" ++ "- Upcoming Jobs: " ++ toString (statsTotals jobs now).2.1 ++ "\n" ++
      "- Completed Jobs: " ++ toString (statsTotals jobs now).2.2 ++ "\n", ?_⟩
    rw [buildJobsSection_decomp jobs now h]
    simp only [String.append_assoc]
  · intro h
    cases events with
    | nil => exact absurd rfl h
    | cons a l =>
      constructor
      · unfold buildEventsSection
        rw [if_neg (by simp : ¬((a :: l).isEmpty = true)), foldl_append_from]
      · rw [List.length_take]
  · intro h
    cases aiJobs with
    | nil => exact absurd rfl h
    | cons a l =>
      constructor
      · unfold buildAiJobsSection
        rw [if_neg (by simp : ¬((a :: l).isEmpty = true)), foldl_append_from]
      · rw [List.length_take]
  · intro h
    cases agencies with
    | nil => exact absurd rfl h
    | cons a l =>
      unfold buildAgenciesSection
      rw [if_neg (by simp : ¬((a :: l).isEmpty = true)), foldl_append_from]
  · intro h
    cases agents with
    | nil => exact absurd rfl h
    | cons a l =>
      unfold buildAgentsSection
      rw [if_neg (by simp : ¬((a :: l).isEmpty = true)), foldl_append_from]
  · intro h
    cases meetings with
    | nil => exact absurd rfl h
    | cons a l =>
      constructor
      · unfold buildMeetingsSection
        rw [if_neg (by simp : ¬((a :: l).isEmpty = true)), foldl_append_from]
      · rw [List.length_take]
  · intro h
    cases onStays with
    | nil => exact absurd rfl h
    | cons a l =>
      constructor
      · unfold buildOnStaysSection
        rw [if_neg (by simp : ¬((a :: l).isEmpty = true)), foldl_append_from]
      · rw [List.length_take]
  · intro h
    cases shootings with
    | nil => exact absurd rfl h
    | cons a l =>
      constructor
      · unfold buildShootingsSection
        rw [if_neg (by simp : ¬((a :: l).isEmpty = true)), foldl_append_from]
      · rw [List.length_take]

/-- C7 witness: the amended theorem applied at a one-element AI-jobs list. -/
theorem claim7_witness :
    buildAiJobsSection [plainAiJob] =
      "AI JOBS:\n" ++ concatMapStr aiJobBlock ([plainAiJob].take 5) ∧
    ([plainAiJob].take 5).length = min 5 [plainAiJob].length :=
  (claim7_amended_headers_caps [] 0 [] [plainAiJob] [] [] [] [] []).2.2.1 (by decide)

/-- C9 (amended): `buildUserContext` samples the wall clock five times — in
the jobs section, the statistics, the calendar merger, and twice in the
footer — and its output depends on the clock only through those five
samples: two runs agreeing on all five produce identical output. -/
theorem claim9_amended_five_clock_reads (ud : Option Bundle) (c1 c2 : ℕ → ℤ)
    (h0 : c1 0 = c2 0) (h1 : c1 1 = c2 1) (h2 : c1 2 = c2 2)
    (h3 : c1 3 = c2 3) (h4 : c1 4 = c2 4) :
    buildUserContext ud c1 = buildUserContext ud c2 := by
  unfold buildUserContext
  rw [h0, h1, h2, h3, h4]

/-- C9 witness: the amended theorem applied to two concrete clocks that agree
on the first five samples. -/
theorem claim9_witness :
    buildUserContext none (fun _ => 5) =
      buildUserContext none (fun i => if i < 5 then 5 else 99) :=
  claim9_amended_five_clock_reads none (fun _ => 5) (fun i => if i < 5 then 5 else 99)
    (by decide) (by decide) (by decide) (by decide) (by decide)

/-- C1, counterexample: when the jobs-section builder throws and every other
builder succeeds, the output is the global fallback
`"Error gathering user data. Please try again."` — the exception is *not*
replaced by a per-section placeholder, and the remaining sections are *not*
assembled (no `"EVENTS DATA:"` label, no "error loading" line). -/
theorem claim1_counterexample :
    jobsThrowOutput = "Error gathering user data. Please try again." ∧
    ¬ containsStr "EVENTS DATA:" jobsThrowOutput ∧
    ¬ containsStr "error loading" jobsThrowOutput ∧
    ¬ containsStr "SHOOTINGS: No shootings found." jobsThrowOutput := by
  decide

/-- C1 (amended): `buildUserContext` never throws, but only the statistics
and calendar sections have local handlers (their cores failing yields their
category-specific error line while assembly continues); an exception in any
of the nine other builders propagates to the single outer catch, which
replaces the entire output with the global fallback string. -/
theorem claim1_amended_sections_error_policy
    (pR jR eR aR gR tR mR oR sR statsC calC : Except Unit String) (cd ct : String) :
    (∀ p j e a g t m o s : String,
      pR = .ok p → jR = .ok j → eR = .ok e → aR = .ok a → gR = .ok g →
      tR = .ok t → mR = .ok m → oR = .ok o → sR = .ok s →
      buildUserContextResult pR jR eR aR gR tR mR oR sR statsC calC cd ct =
        assembleContext p j e a g t m o s
          (sectionOrFallback statsC "STATISTICS: Error calculating statistics.")
          (sectionOrFallback calC "UPCOMING CALENDAR: Error loading calendar data.")
          cd ct) ∧
    ((pR = .error () ∨ jR = .error () ∨ eR = .error () ∨ aR = .error () ∨
      gR = .error () ∨ tR = .error () ∨ mR = .error () ∨ oR = .error () ∨
      sR = .error ()) →
      buildUserContextResult pR jR eR aR gR tR mR oR sR statsC calC cd ct =
        "Error gathering user data. Please try again.") := by
  constructor
  · intro p j e a g t m o s hp hj he ha hg ht hm ho hs
    subst hp hj he ha hg ht hm ho hs
    rfl
  · intro h
    rcases h with h | h | h | h | h | h | h | h | h
    · subst h
      rfl
    · subst h
      cases pR <;> rfl
    · subst h
      cases pR <;> cases jR <;> rfl
    · subst h
      cases pR <;> cases jR <;> cases eR <;> rfl
    · subst h
      cases pR <;> cases jR <;> cases eR <;> cases aR <;> rfl
    · subst h
      cases pR <;> cases jR <;> cases eR <;> cases aR <;> cases gR <;> rfl
    · subst h
      cases pR <;> cases jR <;> cases eR <;> cases aR <;> cases gR <;> cases tR <;> rfl
    · subst h
      cases pR <;> cases jR <;> cases eR <;> cases aR <;> cases gR <;> cases tR <;>
        cases mR <;> rfl
    · subst h
      cases pR <;> cases jR <;> cases eR <;> cases aR <;> cases gR <;> cases tR <;>
        cases mR <;> cases oR <;> rfl

/-- C1 witness: a failing statistics core is replaced by its specific error
line while the rest of the context is still assembled. -/
theorem claim1_witness :
    buildUserContextResult (.ok "P") (.ok "J") (.ok "E") (.ok "A") (.ok "G")
      (.ok "T") (.ok "M") (.ok "O") (.ok "S") (.error ()) (.ok "C") "D" "TI" =
      assembleContext "P" "J" "E" "A" "G" "T" "M" "O" "S"
        "STATISTICS: Error calculating statistics." "C" "D" "TI" :=
  (claim1_amended_sections_error_policy (.ok "P") (.ok "J") (.ok "E") (.ok "A")
      (.ok "G") (.ok "T") (.ok "M") (.ok "O") (.ok "S") (.error ()) (.ok "C")
      "D" "TI").1 "P" "J" "E" "A" "G" "T" "M" "O" "S"
    rfl rfl rfl rfl rfl rfl rfl rfl rfl

/-- C8: the calendar merger keeps exactly the items whose parsed date is
strictly after `now` (absent and unparseable dates are excluded), sorts the
jobs-then-events-then-meetings candidate list stably by date (sorted output,
a permutation of the input, preserving the relative order of equal dates —
so a three-way date tie renders jobs, then events, then meetings), truncates
to the first 10, and renders the single "no upcoming events" line when the
candidate list is empty. -/
theorem claim8_calendar_merger (jobs : List Job) (events : List Event)
    (meetings : List Meeting) (now : ℤ) :
    (∀ it ∈ upcomingCandidates now jobs events meetings, now < it.dateTs) ∧
    (∀ j : Job, (¬ j.date.truthy ∨ jvalToDate j.date = none) → jobCalEntry now j = none) ∧
    (∀ e : Event, (¬ e.date.truthy ∨ jvalToDate e.date = none) → eventCalEntry now e = none) ∧
    (∀ m : Meeting, (¬ m.date.truthy ∨ jvalToDate m.date = none) → meetingCalEntry now m = none) ∧
    (sortStable calLe (upcomingCandidates now jobs events meetings)).Pairwise
      (fun a b => calLe a b) ∧
    List.Perm (sortStable calLe (upcomingCandidates now jobs events meetings))
      (upcomingCandidates now jobs events meetings) ∧
    (∀ k : ℤ,
      (sortStable calLe (upcomingCandidates now jobs events meetings)).filter
        (fun it => decide (it.dateTs = k)) =
      (upcomingCandidates now jobs events meetings).filter
        (fun it => decide (it.dateTs = k))) ∧
    (upcomingCandidates now jobs events meetings = [] →
      getCalendarSummary jobs events meetings now =
        "UPCOMING CALENDAR: No upcoming events scheduled.") ∧
    (upcomingCandidates now jobs events meetings ≠ [] →
      getCalendarSummary jobs events meetings now =
        ("UPCOMING CALENDAR (Next " ++
          toString (min 10 (upcomingCandidates now jobs events meetings).length) ++
          " Events):\n") ++
        concatMapStr calItemBlock
          ((sortStable calLe (upcomingCandidates now jobs events meetings)).take 10)) ∧
    ((sortStable calLe (upcomingCandidates 0 [tieJob] [tieEvent] [tieMeeting])).map
      (fun it => it.ctype ++ "/" ++ it.title) =
      ["job/JobClient", "casting/EventClient", "meeting/MeetClient"]) := by
  refine ⟨?_, fun j h => jobCalEntry_none h, fun e h => eventCalEntry_none h,
    fun m h => meetingCalEntry_none h,
    sortStable_pairwise calLe calLe_total calLe_trans _,
    sortStable_perm calLe _, ?_, ?_, ?_, by decide⟩
  · intro it hit
    unfold upcomingCandidates at hit
    rcases List.mem_append.mp hit with hm | hm
    · rcases List.mem_append.mp hm with hm1 | hm1
      · obtain ⟨j, _, heq⟩ := List.mem_filterMap.mp hm1
        exact jobCalEntry_gt heq
      · obtain ⟨e, _, heq⟩ := List.mem_filterMap.mp hm1
        exact eventCalEntry_gt heq
    · obtain ⟨m, _, heq⟩ := List.mem_filterMap.mp hm
      exact meetingCalEntry_gt heq
  · intro k
    refine filter_sortStable calLe _ calLe_total calLe_trans ?_ _
    intro a b ha hb
    unfold calLe
    simp only [decide_eq_true_eq] at *
    omega
  · intro h
    unfold getCalendarSummary
    rw [h]
    rfl
  · intro h
    unfold getCalendarSummary
    dsimp only
    have hlen : ((sortStable calLe (upcomingCandidates now jobs events meetings)).take 10).length =
        min 10 (upcomingCandidates now jobs events meetings).length := by
      rw [List.length_take, (sortStable_perm calLe _).length_eq]
    have hpos : 0 < ((sortStable calLe (upcomingCandidates now jobs events meetings)).take 10).length := by
      rw [hlen]
      have := List.length_pos.mpr h
      omega
    rw [if_neg (by simp only [List.isEmpty_iff]; exact List.ne_nil_of_length_pos hpos),
      foldl_append_from, hlen]

/-- C8 witness: the theorem applied at empty inputs, discharging the
empty-candidates hypothesis. -/
theorem claim8_witness :
    getCalendarSummary [] [] [] 0 = "UPCOMING CALENDAR: No upcoming events scheduled." :=
  (claim8_calendar_merger [] [] [] 0).2.2.2.2.2.2.2.1 rfl

end ModelDay
